import Mathlib

/-!
Verification of `mbed_tools/build/flash.py` (flashing a compiled firmware
image onto a connected embedded device).

The module is embedded shallowly:

* the filesystem is a partial map from path strings to nodes (regular file,
  symbolic link, directory);
* `pathlib` path arithmetic (`/`, `.name`, `.with_suffix`) and the CPython
  semantics of `shutil.copy(..., follow_symlinks=False)`, `os.path` helpers
  and `Path.exists()` are given as Lean functions on those strings/maps;
* the external device-enumeration collaborator (`get_connected_devices`,
  which lives outside the verified sources) is an environment field holding
  the snapshot `identified_devices` list, as the spec describes it;
* the observable actions of one call (enumerating devices, probing a path
  for existence, copying, syncing) are recorded in an effect trace, and the
  resulting filesystem is returned alongside, so that ordering and
  state-change properties can be stated;
* Python exceptions become `Except` errors; the unguarded `IndexError` on
  `device.mount_points[0]` is its own error constructor.
-/

set_option autoImplicit false

namespace MbedFlash

/-- Decidable equality on `Except` results, so that concrete runs can be
checked by `decide`. -/
instance {ε α : Type} [DecidableEq ε] [DecidableEq α] :
    DecidableEq (Except ε α) := fun a b =>
  match a, b with
  | Except.error e₁, Except.error e₂ => decidable_of_iff (e₁ = e₂) (by simp)
  | Except.error _, Except.ok _ => isFalse (fun h => by cases h)
  | Except.ok _, Except.error _ => isFalse (fun h => by cases h)
  | Except.ok a₁, Except.ok a₂ => decidable_of_iff (a₁ = a₂) (by simp)

/-- A filesystem node: a regular file with its byte content, a symbolic
link holding its target path, or a directory. -/
inductive FsNode where
  | file (content : List Nat)
  | symlink (target : String)
  | dir
deriving DecidableEq, Repr

/-- A filesystem: a partial map from absolute path strings to nodes. -/
def FS : Type := String → Option FsNode

/-- Replace the node stored at path `p`. -/
def fsUpdate (fs : FS) (p : String) (n : FsNode) : FS :=
  fun q => if q = p then some n else fs q

/-- Follow symbolic links starting at `p` until a non-link node (or absent
path) is reached; `none` when the fuel (the OS symlink-loop limit) runs
out. -/
def derefLink : Nat → FS → String → Option String
  | 0, _, _ => none
  | fuel + 1, fs, p =>
    match fs p with
    | some (FsNode.symlink q) => derefLink fuel fs q
    | _ => some p

/-- Models `pathlib.Path.exists()` / `os.path.exists`: follows symbolic
links, false on a broken link or a link loop. -/
def pyExists (fs : FS) (p : String) : Bool :=
  match derefLink 40 fs p with
  | some q => (fs q).isSome
  | none => false

/-- Models `os.path.islink`: true when `p` itself is a symbolic link (no
dereferencing). -/
def isLink (fs : FS) (p : String) : Bool :=
  match fs p with
  | some (FsNode.symlink _) => true
  | _ => false

/-- Models `os.path.isdir`: follows symbolic links. -/
def isDir (fs : FS) (p : String) : Bool :=
  match derefLink 40 fs p with
  | some q =>
    match fs q with
    | some FsNode.dir => true
    | _ => false
  | none => false

/-- Models `os.path.basename`: the part of `p` after its last slash. -/
def osBasename (p : String) : String :=
  String.mk (p.toList.reverse.takeWhile (fun c => c ≠ '/')).reverse

/-- Models `pathlib.PurePath.name`: the final path component, ignoring
trailing slashes (pathlib drops them when parsing). -/
def pathName (p : String) : String :=
  String.mk (((p.toList.reverse.dropWhile (fun c => c = '/')).takeWhile
    (fun c => c ≠ '/')).reverse)

/-- Models `pathlib` `/` (and `os.path.join` for the shapes used here): an
absolute right operand wins, otherwise the components are joined with a
single slash. -/
def pathJoin (a b : String) : String :=
  if b.toList.head? = some '/' then b
  else if a = "" then b
  else if a.toList.getLast? = some '/' then a ++ b
  else a ++ "/" ++ b

/-- Index of the last occurrence of `c` in the list, if any. -/
def lastIdxOf (c : Char) : List Char → Option Nat
  | [] => none
  | x :: xs =>
    match lastIdxOf c xs with
    | some i => some (i + 1)
    | none => if x = c then some 0 else none

/-- Models `pathlib.PurePath.stem` applied to a bare name: strips the
suffix, which is the part from the last dot when that dot is neither the
first nor the last character of the name. -/
def pyStem (name : String) : String :=
  let cs := name.toList
  match lastIdxOf '.' cs with
  | some i => if 0 < i ∧ i < cs.length - 1 then String.mk (cs.take i) else name
  | none => name

/-- Models `pathlib.PurePath.with_suffix`: replace the (possibly empty)
suffix of the final component of `p` with `suffix`. -/
def withSuffix (p suffix : String) : String :=
  let cs := p.toList
  let revName := cs.reverse.takeWhile (fun c => c ≠ '/')
  let parent := (cs.reverse.drop revName.length).reverse
  String.mk parent ++ pyStem (String.mk revName.reverse) ++ suffix

/-- Failure of the copy step, mirroring the exceptions CPython's
`shutil.copyfile` can raise for the filesystem shapes modelled here. -/
inductive CopyError where
  | fileExists
  | sourceNotCopyable
  | destNotWritable
deriving DecidableEq, Repr

/-- Models CPython `shutil.copyfile(src, dst, follow_symlinks=False)`:
when `src` is itself a symbolic link, `os.symlink(os.readlink(src), dst)`
is performed, which recreates the link at `dst` and fails with
`FileExistsError` when anything already exists at `dst`; otherwise the
bytes of the regular file `src` are written via `open(dst, "wb")`, which
follows any symbolic link already present at `dst`. -/
def copyfileNoFollow (fs : FS) (src dst : String) : Except CopyError FS :=
  match fs src with
  | some (FsNode.symlink target) =>
    if (fs dst).isSome then Except.error CopyError.fileExists
    else Except.ok (fsUpdate fs dst (FsNode.symlink target))
  | some (FsNode.file content) =>
    match derefLink 40 fs dst with
    | none => Except.error CopyError.destNotWritable
    | some q =>
      match fs q with
      | some FsNode.dir => Except.error CopyError.destNotWritable
      | some (FsNode.symlink _) => Except.error CopyError.destNotWritable
      | _ => Except.ok (fsUpdate fs q (FsNode.file content))
  | _ => Except.error CopyError.sourceNotCopyable

/-- Models CPython `shutil.copy(src, dst, follow_symlinks=False)`: when
`dst` is a directory the real destination is `dst/basename(src)`, then
`copyfile` runs with the same `follow_symlinks` flag (the trailing
`copymode` only touches permission bits, which are not modelled). -/
def shutilCopyNoFollow (fs : FS) (src dst : String) : Except CopyError FS :=
  let realDst := if isDir fs dst then pathJoin dst (osBasename src) else dst
  copyfileNoFollow fs src realDst

/-- Modelled from the spec: a connected device as delivered by the external
device-enumeration collaborator (class `Device` of `mbed_tools.devices`,
outside the verified sources) — a board-type identifier string
(`device.mbed_board.board_type`) and an ordered list of filesystem mount
points. -/
structure Device where
  boardType : String
  mountPoints : List String
deriving DecidableEq, Repr

/-- The ambient state of one `flash_binary` call: the snapshot of connected
devices the enumeration collaborator would return, the filesystem, the
`platform.system()` string, and the result of `Path.resolve()` on each
mount-point path (a read-only OS query). -/
structure Env where
  connectedDevices : List Device
  fs : FS
  platformSystem : String
  resolvePath : String → String

/-- Observable actions of one call, in order: the single device-enumeration
query, a filesystem existence probe, the copy, and `os.sync()`. -/
inductive Effect where
  | enumerateDevices
  | checkExists (p : String)
  | copy (src dst : String)
  | sync
deriving DecidableEq, Repr

/-- The errors `flash_binary` can raise: `DeviceNotFoundError`,
`BinaryFileNotFoundError`, the unguarded `IndexError` from
`device.mount_points[0]` on a device with no mount points, and an I/O
failure inside the copy. -/
inductive FlashError where
  | deviceNotFound (msg : String)
  | binaryFileNotFound (msg : String)
  | indexError
  | copyFailure (e : CopyError)
deriving DecidableEq, Repr

/-- Models `str.upper()` for the ASCII identifiers compared here: map
every character to its upper-case form. -/
def pyUpper (s : String) : String :=
  String.mk (s.toList.map Char.toUpper)

/-- The loop body of `_find_connected_device`: scan the identified devices
in order and return the first whose upper-cased board type equals the
upper-cased target, else raise `DeviceNotFoundError`. -/
def findFirstDevice (devices : List Device) (mbed_target : String) :
    Except FlashError Device :=
  match devices with
  | [] => Except.error (FlashError.deviceNotFound
      "The target board you compiled for is not connected to your system.")
  | device :: rest =>
    if pyUpper device.boardType = pyUpper mbed_target then Except.ok device
    else findFirstDevice rest mbed_target

/-- `_find_connected_device`: one `get_connected_devices()` query, then the
in-order scan of `identified_devices`. -/
def find_connected_device (env : Env) (mbed_target : String) :
    Except FlashError Device × List Effect :=
  (findFirstDevice env.connectedDevices mbed_target, [Effect.enumerateDevices])

/-- The candidate artifact path `_build_binary_file_path` computes:
`fw_fbase = build_dir / program_path.name` then
`fw_file = fw_fbase.with_suffix(".hex" if hex_file else ".bin")`. -/
def binaryCandidate (program_path build_dir : String) (hex_file : Bool) : String :=
  withSuffix (pathJoin build_dir (pathName program_path))
    (if hex_file then ".hex" else ".bin")

/-- `_build_binary_file_path`: compute the candidate path, probe it with
`Path.exists()`, raise `BinaryFileNotFoundError` when absent, else return
it. -/
def build_binary_file_path (env : Env) (program_path build_dir : String)
    (hex_file : Bool) : Except FlashError String × List Effect :=
  let fw_file := binaryCandidate program_path build_dir hex_file
  (if pyExists env.fs fw_file then Except.ok fw_file
   else Except.error (FlashError.binaryFileNotFound
     ("Build program file (firmware) not found " ++ fw_file)),
   [Effect.checkExists fw_file])

/-- `_flash_dev`: `shutil.copy(image_path, disk, follow_symlinks=False)`,
then — only when the copy succeeded and `platform.system()` is not
`"Windows"` — `os.sync()`. -/
def flash_dev (env : Env) (disk image_path : String) :
    Except CopyError FS × List Effect :=
  match shutilCopyNoFollow env.fs image_path disk with
  | Except.error e => (Except.error e, [Effect.copy image_path disk])
  | Except.ok fs' =>
    (Except.ok fs', Effect.copy image_path disk ::
      (if env.platformSystem = "Windows" then [] else [Effect.sync]))

/-- Everything observable about one `flash_binary` call: its result, the
filesystem afterwards, and the ordered effect trace. -/
structure FlashOutcome where
  result : Except FlashError Unit
  fs : FS
  trace : List Effect

/-- `flash_binary`: resolve the device, locate the artifact, then copy it
onto `device.mount_points[0].resolve()`; each earlier failure propagates
before the later steps run, and an empty mount-point list raises
`IndexError` after artifact location. -/
def flash_binary (env : Env) (program_path build_dir mbed_target : String)
    (hex_file : Bool) : FlashOutcome :=
  match find_connected_device env mbed_target with
  | (Except.error e, t1) => { result := Except.error e, fs := env.fs, trace := t1 }
  | (Except.ok device, t1) =>
    match build_binary_file_path env program_path build_dir hex_file with
    | (Except.error e, t2) =>
      { result := Except.error e, fs := env.fs, trace := t1 ++ t2 }
    | (Except.ok fw_file, t2) =>
      match device.mountPoints with
      | [] => { result := Except.error FlashError.indexError, fs := env.fs,
                trace := t1 ++ t2 }
      | mp :: _ =>
        match flash_dev env (env.resolvePath mp) fw_file with
        | (Except.error e, t3) =>
          { result := Except.error (FlashError.copyFailure e), fs := env.fs,
            trace := t1 ++ t2 ++ t3 }
        | (Except.ok fs', t3) =>
          { result := Except.ok (), fs := fs', trace := t1 ++ t2 ++ t3 }

/-- The empty filesystem. -/
def emptyFS : FS := fun _ => none

/-- A demonstration device: a K64F board mounted at `/mnt`. -/
def demoDevice : Device := { boardType := "K64F", mountPoints := ["/mnt"] }

/-- An environment whose only connected board is an F411RE. -/
def envNoMatch : Env :=
  { connectedDevices := [{ boardType := "F411RE", mountPoints := ["/media/f411"] }]
    fs := emptyFS, platformSystem := "Linux", resolvePath := fun p => p }

/-- An environment with a single connected K64F and no files. -/
def envSingle : Env :=
  { connectedDevices := [demoDevice], fs := emptyFS,
    platformSystem := "Linux", resolvePath := fun p => p }

/-- A filesystem holding only the built `.bin` artifact. -/
def binFS : FS :=
  fun p => if p = "/build/myapp.bin" then some (FsNode.file [0]) else none

/-- An environment where only `/build/myapp.bin` exists. -/
def envBinOnly : Env :=
  { connectedDevices := [demoDevice], fs := binFS,
    platformSystem := "Linux", resolvePath := fun p => p }

/-- A filesystem with the `.bin` artifact and the `/mnt` mount directory. -/
def flashFS : FS :=
  fun p =>
    if p = "/build/myapp.bin" then some (FsNode.file [1])
    else if p = "/mnt" then some FsNode.dir
    else none

/-- A fully working non-Windows environment. -/
def envOK : Env :=
  { connectedDevices := [demoDevice], fs := flashFS,
    platformSystem := "Linux", resolvePath := fun p => p }

/-- The same working environment on Windows. -/
def envWin : Env := { envOK with platformSystem := "Windows" }

/-- A working environment whose device exposes two mount points. -/
def envMulti : Env :=
  { connectedDevices := [{ boardType := "K64F", mountPoints := ["/mnt1", "/mnt2"] }]
    fs := fun p =>
      if p = "/build/myapp.bin" then some (FsNode.file [1])
      else if p = "/mnt1" then some FsNode.dir
      else if p = "/mnt2" then some FsNode.dir
      else none
    platformSystem := "Linux", resolvePath := fun p => p }

/-- An environment whose matched device carries no mount point at all. -/
def envNoMount : Env :=
  { connectedDevices := [{ boardType := "K64F", mountPoints := [] }]
    fs := binFS, platformSystem := "Linux", resolvePath := fun p => p }

/-- A filesystem where the artifact path is itself a symbolic link to the
real firmware file. -/
def linkFS : FS :=
  fun p =>
    if p = "/build/myapp.bin" then some (FsNode.symlink "/real/app.bin")
    else if p = "/real/app.bin" then some (FsNode.file [7])
    else if p = "/mnt" then some FsNode.dir
    else none

/-- An environment whose located artifact is a symbolic link. -/
def envLinkSrc : Env :=
  { connectedDevices := [demoDevice], fs := linkFS,
    platformSystem := "Linux", resolvePath := fun p => p }

/-- A filesystem where a symbolic link already sits at the destination
name on the mount point. -/
def dstLinkFS : FS :=
  fun p =>
    if p = "/build/myapp.bin" then some (FsNode.file [5])
    else if p = "/mnt" then some FsNode.dir
    else if p = "/mnt/myapp.bin" then some (FsNode.symlink "/elsewhere")
    else none

/-- An environment with a pre-existing symbolic link at the destination. -/
def envDstLink : Env :=
  { connectedDevices := [demoDevice], fs := dstLinkFS,
    platformSystem := "Linux", resolvePath := fun p => p }

/-- The only error `findFirstDevice` raises is `DeviceNotFoundError` with
its fixed message. -/
theorem findFirstDevice_error_shape {devs : List Device} {t : String}
    {e : FlashError} (h : findFirstDevice devs t = Except.error e) :
    e = FlashError.deviceNotFound
      "The target board you compiled for is not connected to your system." := by
  induction devs with
  | nil =>
    simp only [findFirstDevice, Except.error.injEq] at h
    exact h.symm
  | cons d rest ih =>
    simp only [findFirstDevice] at h
    by_cases hc : pyUpper d.boardType = pyUpper t
    · simp [hc] at h
    · rw [if_neg hc] at h
      exact ih h

/-- The scan returns the head of the first matching suffix: a matching
device preceded only by non-matching ones is the result. -/
theorem findFirstDevice_first (pre : List Device) (d : Device)
    (post : List Device) (t : String)
    (hpre : ∀ x ∈ pre, pyUpper x.boardType ≠ pyUpper t)
    (hd : pyUpper d.boardType = pyUpper t) :
    findFirstDevice (pre ++ d :: post) t = Except.ok d := by
  induction pre with
  | nil => simp [findFirstDevice, hd]
  | cons x xs ih =>
    have hx : pyUpper x.boardType ≠ pyUpper t := hpre x (by simp)
    simp only [List.cons_append, findFirstDevice, if_neg hx]
    exact ih (fun y hy => hpre y (by simp [hy]))

/-- The scan fails exactly when no device matches case-insensitively. -/
theorem findFirstDevice_error_iff (devs : List Device) (t : String) :
    (∃ msg, findFirstDevice devs t = Except.error (FlashError.deviceNotFound msg))
      ↔ ∀ x ∈ devs, pyUpper x.boardType ≠ pyUpper t := by
  induction devs with
  | nil =>
    simp [findFirstDevice]
  | cons d rest ih =>
    by_cases hc : pyUpper d.boardType = pyUpper t
    · simp [findFirstDevice, hc]
    · simp only [findFirstDevice, if_neg hc]
      rw [ih]
      constructor
      · intro h x hx
        rcases List.mem_cons.mp hx with rfl | hx'
        · exact hc
        · exact h x hx'
      · intro h x hx
        exact h x (List.mem_cons_of_mem _ hx)

/-- When a matching device exists, the scan succeeds. -/
theorem findFirstDevice_isOk_of_match {devs : List Device} {t : String}
    (h : ∃ x ∈ devs, pyUpper x.boardType = pyUpper t) :
    ∃ d, findFirstDevice devs t = Except.ok d := by
  cases he : findFirstDevice devs t with
  | ok d => exact ⟨d, rfl⟩
  | error e =>
    obtain ⟨x, hx, hm⟩ := h
    have := findFirstDevice_error_shape he
    subst this
    exact absurd hm (((findFirstDevice_error_iff devs t).mp ⟨_, he⟩) x hx)

/-- Branch shape: device resolution fails. -/
theorem flash_binary_devErr {env : Env} {tgt : String} {e : FlashError}
    (pp bd : String) (hex : Bool)
    (h : findFirstDevice env.connectedDevices tgt = Except.error e) :
    flash_binary env pp bd tgt hex =
      { result := Except.error e, fs := env.fs,
        trace := [Effect.enumerateDevices] } := by
  simp [flash_binary, find_connected_device, h]

/-- Branch shape: device found but the artifact file is absent. -/
theorem flash_binary_binErr {env : Env} {tgt : String} {device : Device}
    (pp bd : String) (hex : Bool)
    (h1 : findFirstDevice env.connectedDevices tgt = Except.ok device)
    (h2 : pyExists env.fs (binaryCandidate pp bd hex) = false) :
    flash_binary env pp bd tgt hex =
      { result := Except.error (FlashError.binaryFileNotFound
          ("Build program file (firmware) not found " ++ binaryCandidate pp bd hex)),
        fs := env.fs,
        trace := [Effect.enumerateDevices,
                  Effect.checkExists (binaryCandidate pp bd hex)] } := by
  simp [flash_binary, find_connected_device, h1, build_binary_file_path, h2]

/-- Branch shape: device found, artifact present, but the device has no
mount points — the unguarded `IndexError`. -/
theorem flash_binary_noMount {env : Env} {tgt : String} {device : Device}
    (pp bd : String) (hex : Bool)
    (h1 : findFirstDevice env.connectedDevices tgt = Except.ok device)
    (h2 : pyExists env.fs (binaryCandidate pp bd hex) = true)
    (h3 : device.mountPoints = []) :
    flash_binary env pp bd tgt hex =
      { result := Except.error FlashError.indexError, fs := env.fs,
        trace := [Effect.enumerateDevices,
                  Effect.checkExists (binaryCandidate pp bd hex)] } := by
  simp [flash_binary, find_connected_device, h1, build_binary_file_path, h2, h3]

/-- Branch shape: the copy itself fails. -/
theorem flash_binary_copyErr {env : Env} {tgt : String} {device : Device}
    {mp : String} {rest : List String} {ce : CopyError}
    (pp bd : String) (hex : Bool)
    (h1 : findFirstDevice env.connectedDevices tgt = Except.ok device)
    (h2 : pyExists env.fs (binaryCandidate pp bd hex) = true)
    (h3 : device.mountPoints = mp :: rest)
    (h4 : shutilCopyNoFollow env.fs (binaryCandidate pp bd hex)
            (env.resolvePath mp) = Except.error ce) :
    flash_binary env pp bd tgt hex =
      { result := Except.error (FlashError.copyFailure ce), fs := env.fs,
        trace := [Effect.enumerateDevices,
                  Effect.checkExists (binaryCandidate pp bd hex),
                  Effect.copy (binaryCandidate pp bd hex) (env.resolvePath mp)] } := by
  simp [flash_binary, find_connected_device, h1, build_binary_file_path, h2, h3,
    flash_dev, h4]

/-- Branch shape: the whole pipeline succeeds. -/
theorem flash_binary_okShape {env : Env} {tgt : String} {device : Device}
    {mp : String} {rest : List String} {fs' : FS}
    (pp bd : String) (hex : Bool)
    (h1 : findFirstDevice env.connectedDevices tgt = Except.ok device)
    (h2 : pyExists env.fs (binaryCandidate pp bd hex) = true)
    (h3 : device.mountPoints = mp :: rest)
    (h4 : shutilCopyNoFollow env.fs (binaryCandidate pp bd hex)
            (env.resolvePath mp) = Except.ok fs') :
    flash_binary env pp bd tgt hex =
      { result := Except.ok (), fs := fs',
        trace := [Effect.enumerateDevices,
                  Effect.checkExists (binaryCandidate pp bd hex),
                  Effect.copy (binaryCandidate pp bd hex) (env.resolvePath mp)] ++
          (if env.platformSystem = "Windows" then [] else [Effect.sync]) } := by
  simp [flash_binary, find_connected_device, h1, build_binary_file_path, h2, h3,
    flash_dev, h4]

/-- Exhaustive branch analysis of one `flash_binary` call: it ends in one
of five shapes — device not found, artifact not found, `IndexError` on an
empty mount-point list, copy failure, or success — each with its exact
effect trace and resulting filesystem. -/
theorem flash_binary_cases (env : Env) (pp bd tgt : String) (hex : Bool) :
    (∃ msg, flash_binary env pp bd tgt hex =
      { result := Except.error (FlashError.deviceNotFound msg), fs := env.fs,
        trace := [Effect.enumerateDevices] })
  ∨ (∃ msg, flash_binary env pp bd tgt hex =
      { result := Except.error (FlashError.binaryFileNotFound msg), fs := env.fs,
        trace := [Effect.enumerateDevices,
                  Effect.checkExists (binaryCandidate pp bd hex)] })
  ∨ (∃ device, findFirstDevice env.connectedDevices tgt = Except.ok device ∧
      device.mountPoints = [] ∧
      flash_binary env pp bd tgt hex =
      { result := Except.error FlashError.indexError, fs := env.fs,
        trace := [Effect.enumerateDevices,
                  Effect.checkExists (binaryCandidate pp bd hex)] })
  ∨ (∃ device mp rest e,
      findFirstDevice env.connectedDevices tgt = Except.ok device ∧
      device.mountPoints = mp :: rest ∧
      flash_binary env pp bd tgt hex =
      { result := Except.error (FlashError.copyFailure e), fs := env.fs,
        trace := [Effect.enumerateDevices,
                  Effect.checkExists (binaryCandidate pp bd hex),
                  Effect.copy (binaryCandidate pp bd hex) (env.resolvePath mp)] })
  ∨ (∃ device mp rest fs',
      findFirstDevice env.connectedDevices tgt = Except.ok device ∧
      device.mountPoints = mp :: rest ∧
      shutilCopyNoFollow env.fs (binaryCandidate pp bd hex)
        (env.resolvePath mp) = Except.ok fs' ∧
      flash_binary env pp bd tgt hex =
      { result := Except.ok (), fs := fs',
        trace := [Effect.enumerateDevices,
                  Effect.checkExists (binaryCandidate pp bd hex),
                  Effect.copy (binaryCandidate pp bd hex) (env.resolvePath mp)] ++
          (if env.platformSystem = "Windows" then [] else [Effect.sync]) }) := by
  cases h1 : findFirstDevice env.connectedDevices tgt with
  | error e =>
    obtain rfl := findFirstDevice_error_shape h1
    exact Or.inl ⟨_, flash_binary_devErr pp bd hex h1⟩
  | ok device =>
    cases h2 : pyExists env.fs (binaryCandidate pp bd hex) with
    | false =>
      exact Or.inr (Or.inl ⟨_, flash_binary_binErr pp bd hex h1 h2⟩)
    | true =>
      cases h3 : device.mountPoints with
      | nil =>
        exact Or.inr (Or.inr (Or.inl
          ⟨device, rfl, h3, flash_binary_noMount pp bd hex h1 h2 h3⟩))
      | cons mp rest =>
        cases h4 : shutilCopyNoFollow env.fs (binaryCandidate pp bd hex)
            (env.resolvePath mp) with
        | error ce =>
          exact Or.inr (Or.inr (Or.inr (Or.inl
            ⟨device, mp, rest, ce, rfl, h3,
             flash_binary_copyErr pp bd hex h1 h2 h3 h4⟩)))
        | ok fs' =>
          exact Or.inr (Or.inr (Or.inr (Or.inr
            ⟨device, mp, rest, fs', rfl, h3, h4,
             flash_binary_okShape pp bd hex h1 h2 h3 h4⟩)))

/-- C1: for every connected-device list and target identifier, when some
device's board type equals the target case-insensitively,
`find_connected_device` scans in order and returns the first such matching
device (case-insensitivity holding in both directions). -/
theorem C1_find_connected_device_first_match (env : Env) (target : String)
    (pre : List Device) (d : Device) (post : List Device)
    (hsplit : env.connectedDevices = pre ++ d :: post)
    (hpre : ∀ x ∈ pre, pyUpper x.boardType ≠ pyUpper target)
    (hd : pyUpper d.boardType = pyUpper target) :
    (find_connected_device env target).fst = Except.ok d := by
  simp only [find_connected_device]
  rw [hsplit]
  exact findFirstDevice_first pre d post target hpre hd

/-- Witness for C1 at a concrete input: the lower-case identifier `k64f`
matches the single connected device reporting `K64F`. -/
theorem C1_witness :
    (find_connected_device envSingle "k64f").fst = Except.ok demoDevice :=
  C1_find_connected_device_first_match envSingle "k64f" [] demoDevice []
    rfl (by simp) (by decide)

/-- C5: `find_connected_device` fails with `DeviceNotFound` (its fixed
message) if and only if no connected device's board type equals the target
case-insensitively; the failure value is returned directly (the embedding
is a single pass with no retry construct). -/
theorem C5_find_connected_device_not_found_iff (env : Env) (target : String) :
    (find_connected_device env target).fst =
        Except.error (FlashError.deviceNotFound
          "The target board you compiled for is not connected to your system.")
      ↔ ∀ d ∈ env.connectedDevices, pyUpper d.boardType ≠ pyUpper target := by
  constructor
  · intro h
    exact (findFirstDevice_error_iff env.connectedDevices target).mp
      ⟨_, by simpa [find_connected_device] using h⟩
  · intro h
    obtain ⟨msg, hmsg⟩ :=
      (findFirstDevice_error_iff env.connectedDevices target).mpr h
    have hm := findFirstDevice_error_shape hmsg
    rw [hm] at hmsg
    simpa [find_connected_device] using hmsg

/-- Witness for C5 at a concrete input: with only an F411RE connected,
looking for a K64F fails with `DeviceNotFound`. -/
theorem C5_witness :
    (find_connected_device envNoMatch "K64F").fst =
      Except.error (FlashError.deviceNotFound
        "The target board you compiled for is not connected to your system.") :=
  (C5_find_connected_device_not_found_iff envNoMatch "K64F").mpr (by decide)

/-- C2: `build_binary_file_path` computes the candidate
`build_dir / basename(project_path)` carrying extension `.hex` when
`use_hex` and `.bin` otherwise (`binaryCandidate`), and returns exactly
that path when it exists on the filesystem. -/
theorem C2_build_binary_file_path_ok (env : Env)
    (program_path build_dir : String) (hex_file : Bool)
    (h : pyExists env.fs (binaryCandidate program_path build_dir hex_file) = true) :
    (build_binary_file_path env program_path build_dir hex_file).fst =
      Except.ok (binaryCandidate program_path build_dir hex_file) := by
  simp [build_binary_file_path, h]

/-- Witness for C2 at the spec's concrete input: project path `myapp`,
build dir `/build`, `use_hex = false` and `/build/myapp.bin` existing
yield `/build/myapp.bin`. -/
theorem C2_witness :
    (build_binary_file_path envBinOnly "myapp" "/build" false).fst =
      Except.ok "/build/myapp.bin" :=
  (C2_build_binary_file_path_ok envBinOnly "myapp" "/build" false
    (by decide)).trans (by decide)

/-- C6: `build_binary_file_path` fails with `BinaryFileNotFound` (carrying
the computed path in its message) exactly when the computed candidate path
does not exist, for either value of `use_hex`; no alternate extension or
location is ever consulted. -/
theorem C6_build_binary_file_path_not_found_iff (env : Env)
    (program_path build_dir : String) (hex_file : Bool) :
    (build_binary_file_path env program_path build_dir hex_file).fst =
        Except.error (FlashError.binaryFileNotFound
          ("Build program file (firmware) not found " ++
            binaryCandidate program_path build_dir hex_file))
      ↔ pyExists env.fs (binaryCandidate program_path build_dir hex_file) = false := by
  unfold build_binary_file_path
  cases h : pyExists env.fs (binaryCandidate program_path build_dir hex_file) <;>
    simp [h]

/-- Witness for C6 at a concrete input: with `use_hex = true` and only
`/build/myapp.bin` existing, the lookup fails (no fallback to `.bin`). -/
theorem C6_witness :
    (build_binary_file_path envBinOnly "myapp" "/build" true).fst =
      Except.error (FlashError.binaryFileNotFound
        "Build program file (firmware) not found /build/myapp.hex") :=
  ((C6_build_binary_file_path_not_found_iff envBinOnly "myapp" "/build"
    true).mpr (by decide)).trans (by decide)

/-- C3: when device resolution fails with `DeviceNotFound`, `flash_binary`
leaves the filesystem untouched and its trace is the single enumeration
query — artifact location (the existence probe) and the copy are never
attempted; and more generally, whenever it fails with `DeviceNotFound` or
`BinaryFileNotFound`, no copy occurs and the filesystem is unchanged. -/
theorem C3_flash_binary_fail_fast (env : Env)
    (program_path build_dir mbed_target : String) (hex_file : Bool) :
    (∀ msg, (flash_binary env program_path build_dir mbed_target hex_file).result =
        Except.error (FlashError.deviceNotFound msg) →
      (flash_binary env program_path build_dir mbed_target hex_file).fs = env.fs ∧
      (flash_binary env program_path build_dir mbed_target hex_file).trace =
        [Effect.enumerateDevices])
  ∧ (∀ msg, (flash_binary env program_path build_dir mbed_target hex_file).result =
        Except.error (FlashError.binaryFileNotFound msg) →
      (flash_binary env program_path build_dir mbed_target hex_file).fs = env.fs ∧
      ∀ s d, Effect.copy s d ∉
        (flash_binary env program_path build_dir mbed_target hex_file).trace) := by
  rcases flash_binary_cases env program_path build_dir mbed_target hex_file with
    ⟨msg, heq⟩ | ⟨msg, heq⟩ | ⟨device, h1, h3, heq⟩ |
    ⟨device, mp, rest, e, h1, h3, heq⟩ | ⟨device, mp, rest, fs', h1, h3, h4, heq⟩ <;>
    rw [heq] <;> exact ⟨fun m hm => by simp_all, fun m hm => by simp_all⟩

/-- Witness for C3 at a concrete input: with no matching device connected,
the trace of the whole call is the single enumeration query. -/
theorem C3_witness :
    (flash_binary envNoMatch "myapp" "/build" "K64F" false).trace =
      [Effect.enumerateDevices] :=
  ((C3_flash_binary_fail_fast envNoMatch "myapp" "/build" "K64F" false).1
    "The target board you compiled for is not connected to your system."
    (by decide)).2

/-- C7: on a successful `flash_binary` run on a non-Windows platform the
trace ends with exactly one sync, placed immediately after the copy (so
after the copy completes and before the function returns); on Windows no
sync ever occurs. -/
theorem C7_flash_binary_sync (env : Env)
    (program_path build_dir mbed_target : String) (hex_file : Bool)
    (hok : (flash_binary env program_path build_dir mbed_target hex_file).result =
      Except.ok ()) :
    (env.platformSystem = "Windows" →
      Effect.sync ∉ (flash_binary env program_path build_dir mbed_target hex_file).trace)
  ∧ (env.platformSystem ≠ "Windows" →
      ∃ s d pre, (flash_binary env program_path build_dir mbed_target hex_file).trace =
          pre ++ [Effect.copy s d, Effect.sync] ∧ Effect.sync ∉ pre) := by
  rcases flash_binary_cases env program_path build_dir mbed_target hex_file with
    ⟨msg, heq⟩ | ⟨msg, heq⟩ | ⟨device, h1, h3, heq⟩ |
    ⟨device, mp, rest, e, h1, h3, heq⟩ | ⟨device, mp, rest, fs', h1, h3, h4, heq⟩
  · rw [heq] at hok; simp at hok
  · rw [heq] at hok; simp at hok
  · rw [heq] at hok; simp at hok
  · rw [heq] at hok; simp at hok
  · rw [heq]
    constructor
    · intro hw
      simp [hw]
    · intro hw
      refine ⟨binaryCandidate program_path build_dir hex_file,
        env.resolvePath mp, [Effect.enumerateDevices,
          Effect.checkExists (binaryCandidate program_path build_dir hex_file)],
        ?_, by simp⟩
      simp [if_neg hw]

/-- Witness for C7 at concrete inputs: the same successful flash produces a
sync on Linux and none on Windows. -/
theorem C7_witness :
    Effect.sync ∈ (flash_binary envOK "myapp" "/build" "K64F" false).trace ∧
    Effect.sync ∉ (flash_binary envWin "myapp" "/build" "K64F" false).trace := by
  constructor
  · obtain ⟨s, d, pre, htr, -⟩ :=
      (C7_flash_binary_sync envOK "myapp" "/build" "K64F" false (by decide)).2
        (by decide)
    rw [htr]
    simp
  · exact (C7_flash_binary_sync envWin "myapp" "/build" "K64F" false
      (by decide)).1 rfl

/-- C9: every `flash_binary` invocation queries the device-enumeration
collaborator exactly once, as its very first action; the embedding takes
the listing from the per-call environment snapshot, so nothing is cached
across calls. -/
theorem C9_flash_binary_enumerates_once (env : Env)
    (program_path build_dir mbed_target : String) (hex_file : Bool) :
    ((flash_binary env program_path build_dir mbed_target hex_file).trace.count
        Effect.enumerateDevices = 1)
  ∧ ((flash_binary env program_path build_dir mbed_target hex_file).trace.head? =
      some Effect.enumerateDevices) := by
  rcases flash_binary_cases env program_path build_dir mbed_target hex_file with
    ⟨msg, heq⟩ | ⟨msg, heq⟩ | ⟨device, h1, h3, heq⟩ |
    ⟨device, mp, rest, e, h1, h3, heq⟩ | ⟨device, mp, rest, fs', h1, h3, h4, heq⟩
  · rw [heq]; exact ⟨by simp [List.count_cons], rfl⟩
  · rw [heq]; exact ⟨by simp [List.count_cons], rfl⟩
  · rw [heq]; exact ⟨by simp [List.count_cons], rfl⟩
  · rw [heq]; exact ⟨by simp [List.count_cons], rfl⟩
  · rw [heq]
    refine ⟨?_, rfl⟩
    by_cases hw : env.platformSystem = "Windows" <;>
      simp [hw, List.count_cons]

/-- C8: when the resolved device exposes one or more mount points, every
copy `flash_binary` performs targets the resolved first mount point (and
carries the located artifact as source), and a successful run does perform
that copy — even when the device exposes further mount points. -/
theorem C8_flash_binary_first_mount_point (env : Env)
    (program_path build_dir mbed_target : String) (hex_file : Bool)
    (device : Device) (mp : String) (rest : List String)
    (h1 : (find_connected_device env mbed_target).fst = Except.ok device)
    (h3 : device.mountPoints = mp :: rest) :
    (∀ s d, Effect.copy s d ∈
        (flash_binary env program_path build_dir mbed_target hex_file).trace →
      s = binaryCandidate program_path build_dir hex_file ∧
        d = env.resolvePath mp)
  ∧ ((flash_binary env program_path build_dir mbed_target hex_file).result =
        Except.ok () →
      Effect.copy (binaryCandidate program_path build_dir hex_file)
          (env.resolvePath mp) ∈
        (flash_binary env program_path build_dir mbed_target hex_file).trace) := by
  have h1' : findFirstDevice env.connectedDevices mbed_target = Except.ok device := by
    simpa [find_connected_device] using h1
  rcases flash_binary_cases env program_path build_dir mbed_target hex_file with
    ⟨msg, heq⟩ | ⟨msg, heq⟩ | ⟨device', hf, hm, heq⟩ |
    ⟨device', mp', rest', e, hf, hm, heq⟩ | ⟨device', mp', rest', fs', hf, hm, hc, heq⟩
  · rw [heq]; exact ⟨fun s d hsd => by simp at hsd, fun hr => by simp at hr⟩
  · rw [heq]; exact ⟨fun s d hsd => by simp at hsd, fun hr => by simp at hr⟩
  · rw [heq]; exact ⟨fun s d hsd => by simp at hsd, fun hr => by simp at hr⟩
  · have hdev : device' = device := by
      rw [h1'] at hf
      exact (Except.ok.inj hf).symm
    subst hdev
    have hmp : mp' = mp := by
      rw [h3] at hm
      exact (List.cons.inj hm.symm).1
    subst hmp
    rw [heq]
    constructor
    · intro s d hsd
      simp at hsd
      exact ⟨hsd.1, hsd.2⟩
    · intro hr
      simp at hr
  · have hdev : device' = device := by
      rw [h1'] at hf
      exact (Except.ok.inj hf).symm
    subst hdev
    have hmp : mp' = mp := by
      rw [h3] at hm
      exact (List.cons.inj hm.symm).1
    subst hmp
    rw [heq]
    constructor
    · intro s d hsd
      rcases List.mem_append.mp hsd with hin | hin
      · simp at hin
        exact ⟨hin.1, hin.2⟩
      · by_cases hw : env.platformSystem = "Windows" <;> simp [hw] at hin
    · intro hr
      simp [List.mem_append]

/-- Witness for C8 at a concrete input: with mount points
`["/mnt1", "/mnt2"]`, the copy goes to `/mnt1` and never to `/mnt2`. -/
theorem C8_witness :
    Effect.copy "/build/myapp.bin" "/mnt1" ∈
        (flash_binary envMulti "myapp" "/build" "K64F" false).trace ∧
    Effect.copy "/build/myapp.bin" "/mnt2" ∉
        (flash_binary envMulti "myapp" "/build" "K64F" false).trace := by
  have h := C8_flash_binary_first_mount_point envMulti "myapp" "/build" "K64F"
    false { boardType := "K64F", mountPoints := ["/mnt1", "/mnt2"] }
    "/mnt1" ["/mnt2"] (by decide) rfl
  constructor
  · have hc := h.2 (by decide)
    have hs : binaryCandidate "myapp" "/build" false = "/build/myapp.bin" := by decide
    have hd : envMulti.resolvePath "/mnt1" = "/mnt1" := rfl
    rw [hs, hd] at hc
    exact hc
  · intro hmem
    have hd := (h.1 _ _ hmem).2
    have : envMulti.resolvePath "/mnt1" = "/mnt1" := rfl
    rw [this] at hd
    exact absurd hd (by decide)

/-- C10: with a matched device carrying no mount point and the artifact
present, `flash_binary` fails with the unguarded `IndexError` (a distinct
error from `DeviceNotFound`, `BinaryFileNotFound` and copy I/O failures);
conversely a successful run implies the matched device carried at least
one mount point. -/
theorem C10_flash_binary_empty_mounts (env : Env)
    (program_path build_dir mbed_target : String) (hex_file : Bool)
    (device : Device) :
    ((find_connected_device env mbed_target).fst = Except.ok device →
      device.mountPoints = [] →
      pyExists env.fs (binaryCandidate program_path build_dir hex_file) = true →
      (flash_binary env program_path build_dir mbed_target hex_file).result =
        Except.error FlashError.indexError)
  ∧ ((flash_binary env program_path build_dir mbed_target hex_file).result =
        Except.ok () →
      ∃ d mp rest, (find_connected_device env mbed_target).fst = Except.ok d ∧
        d.mountPoints = mp :: rest) := by
  constructor
  · intro h1 h3 h2
    have h1' : findFirstDevice env.connectedDevices mbed_target =
        Except.ok device := by
      simpa [find_connected_device] using h1
    rw [flash_binary_noMount program_path build_dir hex_file h1' h2 h3]
  · intro hok
    rcases flash_binary_cases env program_path build_dir mbed_target hex_file with
      ⟨msg, heq⟩ | ⟨msg, heq⟩ | ⟨device', hf, hm, heq⟩ |
      ⟨device', mp', rest', e, hf, hm, heq⟩ | ⟨device', mp', rest', fs', hf, hm, hc, heq⟩
    · rw [heq] at hok; simp at hok
    · rw [heq] at hok; simp at hok
    · rw [heq] at hok; simp at hok
    · rw [heq] at hok; simp at hok
    · exact ⟨device', mp', rest', by simpa [find_connected_device] using hf, hm⟩

/-- Witness for C10 at a concrete input: a matched K64F with an empty
mount-point list and an existing artifact make the call end in the
unguarded `IndexError`. -/
theorem C10_witness :
    (flash_binary envNoMount "myapp" "/build" "K64F" false).result =
      Except.error FlashError.indexError :=
  (C10_flash_binary_empty_mounts envNoMount "myapp" "/build" "K64F" false
    { boardType := "K64F", mountPoints := [] }).1 (by decide) rfl (by decide)

/-- Dereferencing stops at an absent path one link away. -/
theorem derefLink_link_to_absent {fs : FS} {p q : String}
    (hp : fs p = some (FsNode.symlink q)) (hq : fs q = none) (fuel : Nat) :
    derefLink (fuel + 2) fs p = some q := by
  simp [derefLink, hp, hq]

/-- C4 counterexample: the claim fails on the code. With the located
artifact `/build/myapp.bin` being a symbolic link to `/real/app.bin`
(whose content is `[7]`), the successful flash leaves a recreated symbolic
link at the destination `/mnt/myapp.bin` and not the target's bytes; and
with a regular artifact (content `[5]`) and a pre-existing symbolic link
at `/mnt/myapp.bin` pointing to `/elsewhere`, the destination write
dereferences that link — the content lands at `/elsewhere` and the link
stays in place instead of being replaced by fresh content. -/
theorem C4_counterexample :
    ((flash_binary envLinkSrc "myapp" "/build" "K64F" false).result =
        Except.ok () ∧
      (flash_binary envLinkSrc "myapp" "/build" "K64F" false).fs "/mnt/myapp.bin" =
        some (FsNode.symlink "/real/app.bin") ∧
      (flash_binary envLinkSrc "myapp" "/build" "K64F" false).fs "/mnt/myapp.bin" ≠
        some (FsNode.file [7]))
  ∧ ((flash_binary envDstLink "myapp" "/build" "K64F" false).result =
        Except.ok () ∧
      (flash_binary envDstLink "myapp" "/build" "K64F" false).fs "/mnt/myapp.bin" =
        some (FsNode.symlink "/elsewhere") ∧
      (flash_binary envDstLink "myapp" "/build" "K64F" false).fs "/elsewhere" =
        some (FsNode.file [5])) := by
  decide

/-- C4 amended: the copy performed by `flash_binary` (via
`shutil.copy(..., follow_symlinks=False)`) recreates a symbolic link with
the same target at the destination when the located artifact is itself a
symbolic link (rather than copying the link target's bytes); and when the
artifact is a regular file, the destination write dereferences a symbolic
link already present at the destination path, writing the content through
the link while the link itself stays in place. -/
theorem C4_amended_flash_binary_symlink_semantics (env : Env)
    (program_path build_dir mbed_target : String) (hex_file : Bool)
    (device : Device) (mp : String) (rest : List String)
    (src disk realDst : String)
    (h1 : (find_connected_device env mbed_target).fst = Except.ok device)
    (h3 : device.mountPoints = mp :: rest)
    (hsrc : src = binaryCandidate program_path build_dir hex_file)
    (hdisk : disk = env.resolvePath mp)
    (hreal : realDst = pathJoin disk (osBasename src))
    (hdir : isDir env.fs disk = true) :
    (∀ t, env.fs src = some (FsNode.symlink t) →
      pyExists env.fs src = true →
      env.fs realDst = none →
      (flash_binary env program_path build_dir mbed_target hex_file).result =
        Except.ok () ∧
      (flash_binary env program_path build_dir mbed_target hex_file).fs realDst =
        some (FsNode.symlink t))
  ∧ (∀ content q, env.fs src = some (FsNode.file content) →
      env.fs realDst = some (FsNode.symlink q) →
      env.fs q = none →
      (flash_binary env program_path build_dir mbed_target hex_file).result =
        Except.ok () ∧
      (flash_binary env program_path build_dir mbed_target hex_file).fs q =
        some (FsNode.file content) ∧
      (flash_binary env program_path build_dir mbed_target hex_file).fs realDst =
        some (FsNode.symlink q)) := by
  subst hsrc
  subst hdisk
  subst hreal
  have h1' : findFirstDevice env.connectedDevices mbed_target =
      Except.ok device := by
    simpa [find_connected_device] using h1
  constructor
  · intro t hs hex2 hnone
    have hcopy : shutilCopyNoFollow env.fs
        (binaryCandidate program_path build_dir hex_file)
        (env.resolvePath mp) =
        Except.ok (fsUpdate env.fs
          (pathJoin (env.resolvePath mp)
            (osBasename (binaryCandidate program_path build_dir hex_file)))
          (FsNode.symlink t)) := by
      simp [shutilCopyNoFollow, copyfileNoFollow, hdir, hs, hnone]
    rw [flash_binary_okShape program_path build_dir hex_file h1' hex2 h3 hcopy]
    exact ⟨rfl, by simp [fsUpdate]⟩
  · intro content q hs hql hq
    have hex2 : pyExists env.fs
        (binaryCandidate program_path build_dir hex_file) = true := by
      simp [pyExists, derefLink, hs]
    have hder : derefLink 40 env.fs
        (pathJoin (env.resolvePath mp)
          (osBasename (binaryCandidate program_path build_dir hex_file))) =
        some q :=
      derefLink_link_to_absent hql hq 38
    have hcopy : shutilCopyNoFollow env.fs
        (binaryCandidate program_path build_dir hex_file)
        (env.resolvePath mp) =
        Except.ok (fsUpdate env.fs q (FsNode.file content)) := by
      simp [shutilCopyNoFollow, copyfileNoFollow, hdir, hs, hder, hq]
    have hne : (pathJoin (env.resolvePath mp)
        (osBasename (binaryCandidate program_path build_dir hex_file))) ≠ q := by
      intro hEq
      rw [hEq, hq] at hql
      cases hql
    rw [flash_binary_okShape program_path build_dir hex_file h1' hex2 h3 hcopy]
    refine ⟨rfl, by simp [fsUpdate], ?_⟩
    simp only [fsUpdate]
    rw [if_neg hne]
    exact hql

/-- Witness for the amended C4 at a concrete input: the symbolic-link
artifact of `envLinkSrc` ends up recreated as a link on the mount
point. -/
theorem C4_amended_witness :
    (flash_binary envLinkSrc "myapp" "/build" "K64F" false).fs "/mnt/myapp.bin" =
      some (FsNode.symlink "/real/app.bin") :=
  ((C4_amended_flash_binary_symlink_semantics envLinkSrc "myapp" "/build"
    "K64F" false demoDevice "/mnt" [] "/build/myapp.bin" "/mnt"
    "/mnt/myapp.bin" (by decide) rfl (by decide) rfl (by decide)
    (by decide)).1 "/real/app.bin" (by decide) (by decide) (by decide)).2

end MbedFlash
